import Mathlib

/-!
# Verification of the gRPC boundary of the SSO service

Embedding of `internal/grpc/auth/server.go` (the handlers `Login`, `Register`,
`IsAdmin` and their validators) and of `setupLogger` from `cmd/sso/main.go`.

Conventions of the embedding

* a Go `error` value is `Option _`, `none` being `nil`;
* a Go pointer result such as `*ssov1.LoginResponse` is `Option _`;
* the `Auth` interface is an arbitrary stateful implementation: every method
  takes the state of the service and returns its results with the new state;
* the `context.Context` argument is handed to the service untouched and plays
  no part in any decision of the boundary, it is left out.
-/

namespace SSO

/-! ## Errors of the Go standard library and of the auth package -/

/-- Modelled from the spec: the error values of package
`internal/services/auth` (section 7 of the spec), which is imported by
`server.go` but is not part of the sources at hand.  `server.go` names
`auth.ErrInvalidCredentials`, `auth.ErrUserAlreadyExists` and
`auth.ErrUserNotFound`; `AppNotFound` is the fourth kind of the taxonomy. -/
inductive Sentinel where
  | ErrInvalidCredentials
  | ErrUserAlreadyExists
  | ErrUserNotFound
  | ErrAppNotFound
  deriving DecidableEq, Repr

/-- A Go error value, as built by the standard library:
`sentinel k` is one of the package level variables above,
`errorsNew text` is any other `errors.New(text)` value (a store or
infrastructure failure), `wrap text inner` is `fmt.Errorf("...: %w", inner)`,
and `join errs` is `errors.Join(errs...)`. -/
inductive GoError where
  | sentinel (k : Sentinel)
  | errorsNew (text : String)
  | wrap (text : String) (inner : GoError)
  | join (errs : List GoError)

mutual
/-- The call `errors.Is(err, target)` for a non-nil `err` and a sentinel target:
walks the `Unwrap` chain (depth first through `Unwrap() []error`), comparing
each error with the target. -/
def errorsIs : GoError → Sentinel → Bool
  | .sentinel k, target => decide (k = target)
  | .errorsNew _, _ => false
  | .wrap _ inner, target => errorsIs inner target
  | .join errs, target => errorsIsAny errs target
/-- The loop over `x.Unwrap()` of a joined error inside `errors.Is`. -/
def errorsIsAny : List GoError → Sentinel → Bool
  | [], _ => false
  | e :: rest, target => errorsIs e target || errorsIsAny rest target
end

/-- An error wrapped with context several times over, outermost text first:
the `fmt.Errorf("%s: %w", op, err)` idiom applied repeatedly. -/
def wrapChain : List String → GoError → GoError
  | [], e => e
  | t :: ts, e => .wrap t (wrapChain ts e)

/-! ## gRPC status -/

/-- The codes of `google.golang.org/grpc/codes`. -/
inductive Code where
  | OK
  | Canceled
  | Unknown
  | InvalidArgument
  | DeadlineExceeded
  | NotFound
  | AlreadyExists
  | PermissionDenied
  | ResourceExhausted
  | FailedPrecondition
  | Aborted
  | OutOfRange
  | Unimplemented
  | Internal
  | Unavailable
  | DataLoss
  | Unauthenticated
  deriving DecidableEq, Repr

/-- The content of a status error: its code and its message. -/
structure Status where
  code : Code
  message : String
  deriving DecidableEq, Repr

/-- The call `status.Error(c, msg)`: `nil` for code `OK`, otherwise an error
carrying the code and the message. -/
def statusError (c : Code) (msg : String) : Option Status :=
  if c = Code.OK then none else some { code := c, message := msg }

/-! ## Request and response messages

The messages are generated from the protobuf definitions of the service.  A
getter called on a nil message returns the zero value of the field. -/

/-- The message `ssov1.LoginRequest`; `AppId` is an `int32` field. -/
structure LoginRequest where
  Email : String
  Password : String
  AppId : Int
  deriving DecidableEq, Repr

/-- The message `ssov1.RegisterRequest`. -/
structure RegisterRequest where
  Email : String
  Password : String
  deriving DecidableEq, Repr

/-- The message `ssov1.IsAdminRequest`; `UserId` is an `int64` field. -/
structure IsAdminRequest where
  UserId : Int
  deriving DecidableEq, Repr

/-- The message `ssov1.LoginResponse`. -/
structure LoginResponse where
  Token : String
  deriving DecidableEq, Repr

/-- The message `ssov1.RegisterResponse`. -/
structure RegisterResponse where
  UserId : Int
  deriving DecidableEq, Repr

/-- The message `ssov1.IsAdminResponse`. -/
structure IsAdminResponse where
  IsAdmin : Bool
  deriving DecidableEq, Repr

/-- The getter `(*LoginRequest).GetEmail`. -/
def LoginRequest.GetEmail : Option LoginRequest → String
  | none => ""
  | some r => r.Email

/-- The getter `(*LoginRequest).GetPassword`. -/
def LoginRequest.GetPassword : Option LoginRequest → String
  | none => ""
  | some r => r.Password

/-- The getter `(*LoginRequest).GetAppId`. -/
def LoginRequest.GetAppId : Option LoginRequest → Int
  | none => 0
  | some r => r.AppId

/-- The getter `(*RegisterRequest).GetEmail`. -/
def RegisterRequest.GetEmail : Option RegisterRequest → String
  | none => ""
  | some r => r.Email

/-- The getter `(*RegisterRequest).GetPassword`. -/
def RegisterRequest.GetPassword : Option RegisterRequest → String
  | none => ""
  | some r => r.Password

/-- The getter `(*IsAdminRequest).GetUserId`. -/
def IsAdminRequest.GetUserId : Option IsAdminRequest → Int
  | none => 0
  | some r => r.UserId

/-- The values of Go's `int32`. -/
def isInt32 (x : Int) : Prop := -2147483648 ≤ x ∧ x < 2147483648

instance (x : Int) : Decidable (isInt32 x) := by
  unfold isInt32
  exact inferInstance

/-- The conversion `int(x)` to Go's platform integer of `intBits` bits (32 or
64): the value is reduced to the two's complement range of that width. -/
def toInt (intBits : Nat) (x : Int) : Int :=
  (x + 2 ^ (intBits - 1)) % 2 ^ intBits - 2 ^ (intBits - 1)

/-! ## The Auth interface and the server -/

/-- The interface `Auth` of `server.go`.  Each method returns the pair of its
Go results, the error being `none` for `nil`, together with the next state of
the implementation behind the interface. -/
structure Auth (σ : Type) where
  Login : String → String → Int → σ → (String × Option GoError) × σ
  RegisterNewUser : String → String → σ → (Int × Option GoError) × σ
  IsAdmin : Int → σ → (Bool × Option GoError) × σ

/-- The struct `serverAPI`. -/
structure serverAPI (σ : Type) where
  auth : Auth σ

/-- The function `validateLogin`. -/
def validateLogin (request : Option LoginRequest) : Option Status :=
  if LoginRequest.GetEmail request = "" then
    statusError Code.InvalidArgument "email is required"
  else if LoginRequest.GetPassword request = "" then
    statusError Code.InvalidArgument "password is required"
  else if LoginRequest.GetAppId request = 0 then
    statusError Code.InvalidArgument "app_id is required"
  else
    none

/-- The function `validateRegister`. -/
def validateRegister (request : Option RegisterRequest) : Option Status :=
  if RegisterRequest.GetEmail request = "" then
    statusError Code.InvalidArgument "email is required"
  else if RegisterRequest.GetPassword request = "" then
    statusError Code.InvalidArgument "password is required"
  else
    none

/-- The function `validateIsAdmin`. -/
def validateIsAdmin (request : Option IsAdminRequest) : Option Status :=
  if IsAdminRequest.GetUserId request = 0 then
    statusError Code.InvalidArgument "user_id is required"
  else
    none

/-- The method `(*serverAPI).Login`, on a platform whose `int` has `intBits`
bits.  The result is the pair `(response, error)` of the Go method and the
state in which the auth service is left. -/
def serverAPI.Login {σ : Type} (intBits : Nat) (s : serverAPI σ)
    (request : Option LoginRequest) (st : σ) :
    (Option LoginResponse × Option Status) × σ :=
  match validateLogin request with
  | some err => ((none, some err), st)
  | none =>
    match s.auth.Login (LoginRequest.GetEmail request) (LoginRequest.GetPassword request)
        (toInt intBits (LoginRequest.GetAppId request)) st with
    | ((_, some err), st1) =>
      if errorsIs err Sentinel.ErrInvalidCredentials then
        ((none, statusError Code.InvalidArgument "invalid credentials"), st1)
      else
        ((none, statusError Code.Internal "failed to login"), st1)
    | ((token, none), st1) => ((some { Token := token }, none), st1)

/-- The method `(*serverAPI).Register`. -/
def serverAPI.Register {σ : Type} (s : serverAPI σ)
    (request : Option RegisterRequest) (st : σ) :
    (Option RegisterResponse × Option Status) × σ :=
  match validateRegister request with
  | some err => ((none, some err), st)
  | none =>
    match s.auth.RegisterNewUser (RegisterRequest.GetEmail request)
        (RegisterRequest.GetPassword request) st with
    | ((_, some err), st1) =>
      if errorsIs err Sentinel.ErrUserAlreadyExists then
        ((none, statusError Code.AlreadyExists "user already exists"), st1)
      else
        ((none, statusError Code.Internal "failed to register user"), st1)
    | ((uid, none), st1) => ((some { UserId := uid }, none), st1)

/-- The method `(*serverAPI).IsAdmin`. -/
def serverAPI.IsAdmin {σ : Type} (s : serverAPI σ)
    (request : Option IsAdminRequest) (st : σ) :
    (Option IsAdminResponse × Option Status) × σ :=
  match validateIsAdmin request with
  | some err => ((none, some err), st)
  | none =>
    match s.auth.IsAdmin (IsAdminRequest.GetUserId request) st with
    | ((_, some err), st1) =>
      if errorsIs err Sentinel.ErrUserNotFound then
        ((none, statusError Code.NotFound "user not found"), st1)
      else
        ((none, statusError Code.Internal "failed to check admin status"), st1)
    | ((isAdmin, none), st1) => ((some { IsAdmin := isAdmin }, none), st1)

/-! ## Observing the calls made on the Auth interface -/

/-- One call on the `Auth` interface, with its arguments. -/
inductive AuthCall where
  | Login (email : String) (password : String) (appID : Int)
  | RegisterNewUser (email : String) (password : String)
  | IsAdmin (userID : Int)
  deriving DecidableEq, Repr

/-- Any implementation of `Auth`, extended with a journal to which every call
is appended before it is served by the implementation. -/
def recording {σ : Type} (a : Auth σ) : Auth (σ × List AuthCall) where
  Login := fun email password appID st =>
    ((a.Login email password appID st.1).1,
      ((a.Login email password appID st.1).2, st.2 ++ [AuthCall.Login email password appID]))
  RegisterNewUser := fun email password st =>
    ((a.RegisterNewUser email password st.1).1,
      ((a.RegisterNewUser email password st.1).2, st.2 ++ [AuthCall.RegisterNewUser email password]))
  IsAdmin := fun userID st =>
    ((a.IsAdmin userID st.1).1, ((a.IsAdmin userID st.1).2, st.2 ++ [AuthCall.IsAdmin userID]))

/-- An implementation of `Auth` without state that gives the same answers to
every call; used to evaluate the handlers on concrete inputs. -/
def constAuth (login : String × Option GoError) (register : Int × Option GoError)
    (isAdmin : Bool × Option GoError) : Auth Unit where
  Login := fun _ _ _ st => (login, st)
  RegisterNewUser := fun _ _ st => (register, st)
  IsAdmin := fun _ st => (isAdmin, st)

/-! ## Logger set-up of `cmd/sso/main.go` -/

/-- The constant `envDev`. -/
def envDev : String := "dev"
/-- The constant `envProd`. -/
def envProd : String := "prod"
/-- The constant `envLocal`. -/
def envLocal : String := "local"

/-- The levels of `log/slog`. -/
inductive Level where
  | LevelDebug
  | LevelInfo
  | LevelWarn
  | LevelError
  deriving DecidableEq, Repr

/-- A `*slog.Logger` built by `setupLogger`: a JSON handler writing to the
standard output, with the minimum level of its `HandlerOptions`. -/
structure Logger where
  level : Level
  deriving DecidableEq, Repr

/-- The function `setupLogger`; `none` is the nil logger. -/
def setupLogger (env : String) : Option Logger :=
  if env = envLocal then some { level := Level.LevelDebug }
  else if env = envDev then some { level := Level.LevelDebug }
  else if env = envProd then some { level := Level.LevelInfo }
  else none

/-- A Go run-time failure. -/
inductive GoPanic where
  | nilPointerDereference
  deriving DecidableEq, Repr

/-- The method `(*slog.Logger).Info`: it reads the handler field of its
receiver, which fails on a nil receiver; the record written is not modelled. -/
def Logger.Info : Option Logger → Except GoPanic Unit
  | none => Except.error GoPanic.nilPointerDereference
  | some _ => Except.ok ()

/-- The start of `main`, up to and including its first statement that uses the
logger, for the environment name `env` of the loaded configuration. -/
def mainStart (env : String) : Except GoPanic Unit :=
  Logger.Info (setupLogger env)

/-! ## Auxiliary facts -/

theorem statusError_of_ne_OK (c : Code) (msg : String) (h : c ≠ Code.OK) :
    statusError c msg = some { code := c, message := msg } := by
  simp [statusError, h]

theorem validateLogin_eq_none_iff (request : Option LoginRequest) :
    validateLogin request = none ↔
      LoginRequest.GetEmail request ≠ "" ∧ LoginRequest.GetPassword request ≠ "" ∧
        LoginRequest.GetAppId request ≠ 0 := by
  unfold validateLogin
  by_cases h1 : LoginRequest.GetEmail request = ""
  · simp [h1, statusError]
  · by_cases h2 : LoginRequest.GetPassword request = ""
    · simp [h1, h2, statusError]
    · by_cases h3 : LoginRequest.GetAppId request = 0
      · simp [h1, h2, h3, statusError]
      · simp [h1, h2, h3]

theorem validateLogin_code (request : Option LoginRequest) (err : Status)
    (h : validateLogin request = some err) : err.code = Code.InvalidArgument := by
  unfold validateLogin at h
  split_ifs at h <;> simp [statusError] at h <;> simp [← h]

theorem validateRegister_eq_none_iff (request : Option RegisterRequest) :
    validateRegister request = none ↔
      RegisterRequest.GetEmail request ≠ "" ∧ RegisterRequest.GetPassword request ≠ "" := by
  unfold validateRegister
  by_cases h1 : RegisterRequest.GetEmail request = ""
  · simp [h1, statusError]
  · by_cases h2 : RegisterRequest.GetPassword request = ""
    · simp [h1, h2, statusError]
    · simp [h1, h2]

theorem validateRegister_code (request : Option RegisterRequest) (err : Status)
    (h : validateRegister request = some err) : err.code = Code.InvalidArgument := by
  unfold validateRegister at h
  split_ifs at h <;> simp [statusError] at h <;> simp [← h]

theorem validateIsAdmin_eq_none_iff (request : Option IsAdminRequest) :
    validateIsAdmin request = none ↔ IsAdminRequest.GetUserId request ≠ 0 := by
  unfold validateIsAdmin
  by_cases h1 : IsAdminRequest.GetUserId request = 0
  · simp [h1, statusError]
  · simp [h1]

theorem validateIsAdmin_code (request : Option IsAdminRequest) (err : Status)
    (h : validateIsAdmin request = some err) : err.code = Code.InvalidArgument := by
  unfold validateIsAdmin at h
  split_ifs at h
  simp [statusError] at h
  simp [← h]

theorem toInt_of_isInt32 (intBits : Nat) (x : Int) (hb : intBits = 32 ∨ intBits = 64)
    (hx : isInt32 x) : toInt intBits x = x := by
  unfold isInt32 at hx
  unfold toInt
  rcases hb with rfl | rfl
  · norm_num
    omega
  · norm_num
    omega

/-- A request that fails validation is answered with the error of the
validator, and the state of the service is the one it had. -/
theorem Login_of_invalid {σ : Type} (intBits : Nat) (s : serverAPI σ)
    (request : Option LoginRequest) (st : σ) (err : Status)
    (h : validateLogin request = some err) :
    serverAPI.Login intBits s request st = ((none, some err), st) := by
  simp [serverAPI.Login, h]

theorem Register_of_invalid {σ : Type} (s : serverAPI σ)
    (request : Option RegisterRequest) (st : σ) (err : Status)
    (h : validateRegister request = some err) :
    serverAPI.Register s request st = ((none, some err), st) := by
  simp [serverAPI.Register, h]

theorem IsAdmin_of_invalid {σ : Type} (s : serverAPI σ)
    (request : Option IsAdminRequest) (st : σ) (err : Status)
    (h : validateIsAdmin request = some err) :
    serverAPI.IsAdmin s request st = ((none, some err), st) := by
  simp [serverAPI.IsAdmin, h]

/-- On a validated request for which the service fails, the reply of `Login`
is decided by `errors.Is(err, auth.ErrInvalidCredentials)` alone. -/
theorem Login_of_error {σ : Type} (intBits : Nat) (s : serverAPI σ)
    (request : Option LoginRequest) (st st1 : σ) (token : String) (err : GoError)
    (hv : validateLogin request = none)
    (hc : s.auth.Login (LoginRequest.GetEmail request) (LoginRequest.GetPassword request)
      (toInt intBits (LoginRequest.GetAppId request)) st = ((token, some err), st1)) :
    serverAPI.Login intBits s request st =
      ((none, some (if errorsIs err Sentinel.ErrInvalidCredentials = true then
          { code := Code.InvalidArgument, message := "invalid credentials" }
        else { code := Code.Internal, message := "failed to login" })), st1) := by
  simp only [serverAPI.Login, hv, hc]
  split_ifs <;> simp [statusError]

theorem Register_of_error {σ : Type} (s : serverAPI σ)
    (request : Option RegisterRequest) (st st1 : σ) (uid : Int) (err : GoError)
    (hv : validateRegister request = none)
    (hc : s.auth.RegisterNewUser (RegisterRequest.GetEmail request)
      (RegisterRequest.GetPassword request) st = ((uid, some err), st1)) :
    serverAPI.Register s request st =
      ((none, some (if errorsIs err Sentinel.ErrUserAlreadyExists = true then
          { code := Code.AlreadyExists, message := "user already exists" }
        else { code := Code.Internal, message := "failed to register user" })), st1) := by
  simp only [serverAPI.Register, hv, hc]
  split_ifs <;> simp [statusError]

theorem IsAdmin_of_error {σ : Type} (s : serverAPI σ)
    (request : Option IsAdminRequest) (st st1 : σ) (flag : Bool) (err : GoError)
    (hv : validateIsAdmin request = none)
    (hc : s.auth.IsAdmin (IsAdminRequest.GetUserId request) st = ((flag, some err), st1)) :
    serverAPI.IsAdmin s request st =
      ((none, some (if errorsIs err Sentinel.ErrUserNotFound = true then
          { code := Code.NotFound, message := "user not found" }
        else { code := Code.Internal, message := "failed to check admin status" })), st1) := by
  simp only [serverAPI.IsAdmin, hv, hc]
  split_ifs <;> simp [statusError]

theorem Login_of_success {σ : Type} (intBits : Nat) (s : serverAPI σ)
    (request : Option LoginRequest) (st st1 : σ) (token : String)
    (hv : validateLogin request = none)
    (hc : s.auth.Login (LoginRequest.GetEmail request) (LoginRequest.GetPassword request)
      (toInt intBits (LoginRequest.GetAppId request)) st = ((token, none), st1)) :
    serverAPI.Login intBits s request st = ((some { Token := token }, none), st1) := by
  simp only [serverAPI.Login, hv, hc]

theorem Register_of_success {σ : Type} (s : serverAPI σ)
    (request : Option RegisterRequest) (st st1 : σ) (uid : Int)
    (hv : validateRegister request = none)
    (hc : s.auth.RegisterNewUser (RegisterRequest.GetEmail request)
      (RegisterRequest.GetPassword request) st = ((uid, none), st1)) :
    serverAPI.Register s request st = ((some { UserId := uid }, none), st1) := by
  simp only [serverAPI.Register, hv, hc]

theorem IsAdmin_of_success {σ : Type} (s : serverAPI σ)
    (request : Option IsAdminRequest) (st st1 : σ) (flag : Bool)
    (hv : validateIsAdmin request = none)
    (hc : s.auth.IsAdmin (IsAdminRequest.GetUserId request) st = ((flag, none), st1)) :
    serverAPI.IsAdmin s request st = ((some { IsAdmin := flag }, none), st1) := by
  simp only [serverAPI.IsAdmin, hv, hc]

/-- The state in which a handler leaves a recorded service after a validated
request: the journal has grown by exactly the one call. -/
theorem Login_recording_state {σ : Type} (intBits : Nat) (a : Auth σ)
    (request : Option LoginRequest) (st : σ) (log : List AuthCall)
    (hv : validateLogin request = none) :
    (serverAPI.Login intBits { auth := recording a } request (st, log)).2 =
      ((a.Login (LoginRequest.GetEmail request) (LoginRequest.GetPassword request)
          (toInt intBits (LoginRequest.GetAppId request)) st).2,
        log ++ [AuthCall.Login (LoginRequest.GetEmail request)
          (LoginRequest.GetPassword request) (toInt intBits (LoginRequest.GetAppId request))]) := by
  simp only [serverAPI.Login, hv, recording]
  split
  · split_ifs <;> simp_all
  · simp_all

theorem Register_recording_state {σ : Type} (a : Auth σ)
    (request : Option RegisterRequest) (st : σ) (log : List AuthCall)
    (hv : validateRegister request = none) :
    (serverAPI.Register { auth := recording a } request (st, log)).2 =
      ((a.RegisterNewUser (RegisterRequest.GetEmail request)
          (RegisterRequest.GetPassword request) st).2,
        log ++ [AuthCall.RegisterNewUser (RegisterRequest.GetEmail request)
          (RegisterRequest.GetPassword request)]) := by
  simp only [serverAPI.Register, hv, recording]
  split
  · split_ifs <;> simp_all
  · simp_all

theorem IsAdmin_recording_state {σ : Type} (a : Auth σ)
    (request : Option IsAdminRequest) (st : σ) (log : List AuthCall)
    (hv : validateIsAdmin request = none) :
    (serverAPI.IsAdmin { auth := recording a } request (st, log)).2 =
      ((a.IsAdmin (IsAdminRequest.GetUserId request) st).2,
        log ++ [AuthCall.IsAdmin (IsAdminRequest.GetUserId request)]) := by
  simp only [serverAPI.IsAdmin, hv, recording]
  split
  · split_ifs <;> simp_all
  · simp_all

theorem errorsIs_wrapChain (ctx : List String) (e : GoError) (target : Sentinel) :
    errorsIs (wrapChain ctx e) target = errorsIs e target := by
  induction ctx with
  | nil => rfl
  | cons t ts ih => simpa [wrapChain, errorsIs] using ih

/-! ## The claims -/

/-- C1: a request with a missing required field (Login: empty email, empty
password or app_id 0; Register: empty email or empty password; IsAdmin:
user_id 0) is answered with no response and an invalid-argument status error,
and the operation of the Auth Service is not invoked: whatever the
implementation behind the interface, its state and the journal of calls are
the ones from before the request. -/
theorem C1_missing_field_rejected_without_call {σ : Type} (intBits : Nat) (a : Auth σ)
    (st : σ) (log : List AuthCall) :
    (∀ request : Option LoginRequest,
      (LoginRequest.GetEmail request = "" ∨ LoginRequest.GetPassword request = "" ∨
        LoginRequest.GetAppId request = 0) →
      ∃ msg : String, serverAPI.Login intBits { auth := recording a } request (st, log) =
        ((none, some { code := Code.InvalidArgument, message := msg }), (st, log))) ∧
    (∀ request : Option RegisterRequest,
      (RegisterRequest.GetEmail request = "" ∨ RegisterRequest.GetPassword request = "") →
      ∃ msg : String, serverAPI.Register { auth := recording a } request (st, log) =
        ((none, some { code := Code.InvalidArgument, message := msg }), (st, log))) ∧
    (∀ request : Option IsAdminRequest,
      IsAdminRequest.GetUserId request = 0 →
      ∃ msg : String, serverAPI.IsAdmin { auth := recording a } request (st, log) =
        ((none, some { code := Code.InvalidArgument, message := msg }), (st, log))) := by
  refine ⟨?_, ?_, ?_⟩
  · intro request hmiss
    cases hval : validateLogin request with
    | none =>
      have hall := (validateLogin_eq_none_iff request).1 hval
      rcases hmiss with h | h | h
      · exact absurd h hall.1
      · exact absurd h hall.2.1
      · exact absurd h hall.2.2
    | some err =>
      refine ⟨err.message, ?_⟩
      rw [Login_of_invalid intBits _ request (st, log) err hval]
      have hcode := validateLogin_code request err hval
      cases err
      simp_all
  · intro request hmiss
    cases hval : validateRegister request with
    | none =>
      have hall := (validateRegister_eq_none_iff request).1 hval
      rcases hmiss with h | h
      · exact absurd h hall.1
      · exact absurd h hall.2
    | some err =>
      refine ⟨err.message, ?_⟩
      rw [Register_of_invalid _ request (st, log) err hval]
      have hcode := validateRegister_code request err hval
      cases err
      simp_all
  · intro request hmiss
    cases hval : validateIsAdmin request with
    | none => exact absurd hmiss ((validateIsAdmin_eq_none_iff request).1 hval)
    | some err =>
      refine ⟨err.message, ?_⟩
      rw [IsAdmin_of_invalid _ request (st, log) err hval]
      have hcode := validateIsAdmin_code request err hval
      cases err
      simp_all

/-- Rejection at concrete requests: a login without email, a registration without password and
an admin check for user 0, on a service that would answer every call. -/
theorem C1_missing_field_rejected_without_call_witness :
    (∃ msg : String,
      serverAPI.Login 64 { auth := recording (constAuth ("t", none) (1, none) (true, none)) }
        (some { Email := "", Password := "pw", AppId := 7 }) ((), []) =
        ((none, some { code := Code.InvalidArgument, message := msg }), ((), []))) ∧
    (∃ msg : String,
      serverAPI.Register { auth := recording (constAuth ("t", none) (1, none) (true, none)) }
        (some { Email := "a@x.com", Password := "" }) ((), []) =
        ((none, some { code := Code.InvalidArgument, message := msg }), ((), []))) ∧
    (∃ msg : String,
      serverAPI.IsAdmin { auth := recording (constAuth ("t", none) (1, none) (true, none)) }
        none ((), []) =
        ((none, some { code := Code.InvalidArgument, message := msg }), ((), []))) :=
  ⟨(C1_missing_field_rejected_without_call 64
      (constAuth ("t", none) (1, none) (true, none)) () []).1
      (some { Email := "", Password := "pw", AppId := 7 }) (Or.inl rfl),
    (C1_missing_field_rejected_without_call 64
      (constAuth ("t", none) (1, none) (true, none)) () []).2.1
      (some { Email := "a@x.com", Password := "" }) (Or.inr rfl),
    (C1_missing_field_rejected_without_call 64
      (constAuth ("t", none) (1, none) (true, none)) () []).2.2 none rfl⟩

/-- C2: on a Login request that passes validation and for which the Auth
Service returns an error, the handler returns no response and a status error
whose code is invalid-argument when the error is (or wraps)
InvalidCredentials and internal for every other error; and whatever the
request and the service do, a status error returned by Login has one of these
two codes. -/
theorem C2_login_error_mapping {σ : Type} (intBits : Nat) (s : serverAPI σ)
    (request : Option LoginRequest) (st : σ) :
    (∀ (token : String) (err : GoError) (st1 : σ),
      validateLogin request = none →
      s.auth.Login (LoginRequest.GetEmail request) (LoginRequest.GetPassword request)
        (toInt intBits (LoginRequest.GetAppId request)) st = ((token, some err), st1) →
      ∃ status : Status, serverAPI.Login intBits s request st = ((none, some status), st1) ∧
        (errorsIs err Sentinel.ErrInvalidCredentials = true →
          status.code = Code.InvalidArgument) ∧
        (errorsIs err Sentinel.ErrInvalidCredentials = false →
          status.code = Code.Internal)) ∧
    (∀ status : Status, (serverAPI.Login intBits s request st).1.2 = some status →
      status.code = Code.InvalidArgument ∨ status.code = Code.Internal) := by
  refine ⟨?_, ?_⟩
  · intro token err st1 hv hc
    refine ⟨_, Login_of_error intBits s request st st1 token err hv hc, ?_, ?_⟩
    · intro h
      simp [h]
    · intro h
      simp [h]
  · intro status hs
    cases hval : validateLogin request with
    | some e =>
      rw [Login_of_invalid intBits s request st e hval] at hs
      simp only [Option.some.injEq] at hs
      subst hs
      exact Or.inl (validateLogin_code request e hval)
    | none =>
      rcases hcall : s.auth.Login (LoginRequest.GetEmail request)
        (LoginRequest.GetPassword request)
        (toInt intBits (LoginRequest.GetAppId request)) st with ⟨⟨token, oerr⟩, st1⟩
      cases oerr with
      | none =>
        rw [Login_of_success intBits s request st st1 token hval hcall] at hs
        simp at hs
      | some err =>
        rw [Login_of_error intBits s request st st1 token err hval hcall] at hs
        simp only [Option.some.injEq] at hs
        subst hs
        by_cases hk : errorsIs err Sentinel.ErrInvalidCredentials = true
        · simp [hk]
        · simp [hk]

/-- Login on a service whose failure wraps the invalid-credentials error. -/
theorem C2_login_error_mapping_witness :
    ∃ status : Status,
      serverAPI.Login 64
        { auth := constAuth ("", some (GoError.wrap "auth.Login"
            (GoError.sentinel Sentinel.ErrInvalidCredentials))) (0, none) (false, none) }
        (some { Email := "a@x.com", Password := "wrong", AppId := 7 }) () =
          ((none, some status), ()) ∧
        (errorsIs (GoError.wrap "auth.Login" (GoError.sentinel Sentinel.ErrInvalidCredentials))
          Sentinel.ErrInvalidCredentials = true → status.code = Code.InvalidArgument) ∧
        (errorsIs (GoError.wrap "auth.Login" (GoError.sentinel Sentinel.ErrInvalidCredentials))
          Sentinel.ErrInvalidCredentials = false → status.code = Code.Internal) :=
  (C2_login_error_mapping 64
    { auth := constAuth ("", some (GoError.wrap "auth.Login"
        (GoError.sentinel Sentinel.ErrInvalidCredentials))) (0, none) (false, none) }
    (some { Email := "a@x.com", Password := "wrong", AppId := 7 }) ()).1
    "" (GoError.wrap "auth.Login" (GoError.sentinel Sentinel.ErrInvalidCredentials)) ()
    (by decide) rfl

/-- C3: on a Register request that passes validation and for which
RegisterNewUser returns an error, the handler returns no response and a status
error whose code is already-exists if and only if the error is (or wraps)
UserAlreadyExists, and internal for every other error. -/
theorem C3_register_error_mapping {σ : Type} (s : serverAPI σ)
    (request : Option RegisterRequest) (st st1 : σ) (uid : Int) (err : GoError)
    (hv : validateRegister request = none)
    (hc : s.auth.RegisterNewUser (RegisterRequest.GetEmail request)
      (RegisterRequest.GetPassword request) st = ((uid, some err), st1)) :
    ∃ status : Status, serverAPI.Register s request st = ((none, some status), st1) ∧
      (status.code = Code.AlreadyExists ↔
        errorsIs err Sentinel.ErrUserAlreadyExists = true) ∧
      (errorsIs err Sentinel.ErrUserAlreadyExists = false → status.code = Code.Internal) := by
  refine ⟨_, Register_of_error s request st st1 uid err hv hc, ?_, ?_⟩
  · by_cases hk : errorsIs err Sentinel.ErrUserAlreadyExists = true
    · simp [hk]
    · simp [hk]
  · intro h
    simp [h]

/-- Register on a service that reports a lost connection to the store. -/
theorem C3_register_error_mapping_witness :
    ∃ status : Status,
      serverAPI.Register
        { auth := constAuth ("", none)
            (0, some (GoError.wrap "auth.RegisterNewUser" (GoError.errorsNew "database is locked")))
            (false, none) }
        (some { Email := "a@x.com", Password := "pw1" }) () = ((none, some status), ()) ∧
      (status.code = Code.AlreadyExists ↔
        errorsIs (GoError.wrap "auth.RegisterNewUser" (GoError.errorsNew "database is locked"))
          Sentinel.ErrUserAlreadyExists = true) ∧
      (errorsIs (GoError.wrap "auth.RegisterNewUser" (GoError.errorsNew "database is locked"))
          Sentinel.ErrUserAlreadyExists = false → status.code = Code.Internal) :=
  C3_register_error_mapping
    { auth := constAuth ("", none)
        (0, some (GoError.wrap "auth.RegisterNewUser" (GoError.errorsNew "database is locked")))
        (false, none) }
    (some { Email := "a@x.com", Password := "pw1" }) () () 0
    (GoError.wrap "auth.RegisterNewUser" (GoError.errorsNew "database is locked"))
    (by decide) rfl

/-- C4: on an IsAdmin request with a user_id different from 0 and for which
the Auth Service returns an error, the handler returns no response and a
status error whose code is not-found if and only if the error is (or wraps)
UserNotFound, and internal for every other error. -/
theorem C4_isAdmin_error_mapping {σ : Type} (s : serverAPI σ)
    (request : Option IsAdminRequest) (st st1 : σ) (flag : Bool) (err : GoError)
    (hv : IsAdminRequest.GetUserId request ≠ 0)
    (hc : s.auth.IsAdmin (IsAdminRequest.GetUserId request) st = ((flag, some err), st1)) :
    ∃ status : Status, serverAPI.IsAdmin s request st = ((none, some status), st1) ∧
      (status.code = Code.NotFound ↔ errorsIs err Sentinel.ErrUserNotFound = true) ∧
      (errorsIs err Sentinel.ErrUserNotFound = false → status.code = Code.Internal) := by
  have hval := (validateIsAdmin_eq_none_iff request).2 hv
  refine ⟨_, IsAdmin_of_error s request st st1 flag err hval hc, ?_, ?_⟩
  · by_cases hk : errorsIs err Sentinel.ErrUserNotFound = true
    · simp [hk]
    · simp [hk]
  · intro h
    simp [h]

/-- IsAdmin for a user the service does not know. -/
theorem C4_isAdmin_error_mapping_witness :
    ∃ status : Status,
      serverAPI.IsAdmin
        { auth := constAuth ("", none) (0, none)
            (false, some (GoError.wrap "auth.IsAdmin" (GoError.sentinel Sentinel.ErrUserNotFound))) }
        (some { UserId := 42 }) () = ((none, some status), ()) ∧
      (status.code = Code.NotFound ↔
        errorsIs (GoError.wrap "auth.IsAdmin" (GoError.sentinel Sentinel.ErrUserNotFound))
          Sentinel.ErrUserNotFound = true) ∧
      (errorsIs (GoError.wrap "auth.IsAdmin" (GoError.sentinel Sentinel.ErrUserNotFound))
          Sentinel.ErrUserNotFound = false → status.code = Code.Internal) :=
  C4_isAdmin_error_mapping
    { auth := constAuth ("", none) (0, none)
        (false, some (GoError.wrap "auth.IsAdmin" (GoError.sentinel Sentinel.ErrUserNotFound))) }
    (some { UserId := 42 }) () () false
    (GoError.wrap "auth.IsAdmin" (GoError.sentinel Sentinel.ErrUserNotFound))
    (by decide) rfl

/-- C5: Login does not reveal why credentials were rejected.  For a validated
Login request and two failures of the Auth Service that both are (or wrap)
InvalidCredentials, whatever else the two errors carry, the handler returns
the same result: no response, code invalid-argument and the message
"invalid credentials". -/
theorem C5_login_rejection_indistinguishable {σ τ : Type} (intBits : Nat)
    (s1 : serverAPI σ) (s2 : serverAPI τ) (request : Option LoginRequest)
    (st1 st1a : σ) (st2 st2a : τ) (t1 t2 : String) (e1 e2 : GoError)
    (hv : validateLogin request = none)
    (h1 : s1.auth.Login (LoginRequest.GetEmail request) (LoginRequest.GetPassword request)
      (toInt intBits (LoginRequest.GetAppId request)) st1 = ((t1, some e1), st1a))
    (h2 : s2.auth.Login (LoginRequest.GetEmail request) (LoginRequest.GetPassword request)
      (toInt intBits (LoginRequest.GetAppId request)) st2 = ((t2, some e2), st2a))
    (hk1 : errorsIs e1 Sentinel.ErrInvalidCredentials = true)
    (hk2 : errorsIs e2 Sentinel.ErrInvalidCredentials = true) :
    (serverAPI.Login intBits s1 request st1).1 = (serverAPI.Login intBits s2 request st2).1 ∧
    (serverAPI.Login intBits s1 request st1).1 =
      (none, some { code := Code.InvalidArgument, message := "invalid credentials" }) := by
  rw [Login_of_error intBits s1 request st1 st1a t1 e1 hv h1,
    Login_of_error intBits s2 request st2 st2a t2 e2 hv h2]
  simp [hk1, hk2]

/-- Two services rejecting the same login, one because the email is unknown to
the store, the other because the password does not match. -/
theorem C5_login_rejection_indistinguishable_witness :
    (serverAPI.Login 64
        { auth := constAuth ("", some (GoError.wrap "auth.Login" (GoError.join
            [GoError.errorsNew "user not found",
              GoError.sentinel Sentinel.ErrInvalidCredentials]))) (0, none) (false, none) }
        (some { Email := "a@x.com", Password := "wrong", AppId := 7 }) ()).1 =
      (serverAPI.Login 64
        { auth := constAuth ("", some (GoError.wrap "password mismatch"
            (GoError.sentinel Sentinel.ErrInvalidCredentials))) (0, none) (false, none) }
        (some { Email := "a@x.com", Password := "wrong", AppId := 7 }) ()).1 ∧
    (serverAPI.Login 64
        { auth := constAuth ("", some (GoError.wrap "auth.Login" (GoError.join
            [GoError.errorsNew "user not found",
              GoError.sentinel Sentinel.ErrInvalidCredentials]))) (0, none) (false, none) }
        (some { Email := "a@x.com", Password := "wrong", AppId := 7 }) ()).1 =
      (none, some { code := Code.InvalidArgument, message := "invalid credentials" }) :=
  C5_login_rejection_indistinguishable 64
    { auth := constAuth ("", some (GoError.wrap "auth.Login" (GoError.join
        [GoError.errorsNew "user not found",
          GoError.sentinel Sentinel.ErrInvalidCredentials]))) (0, none) (false, none) }
    { auth := constAuth ("", some (GoError.wrap "password mismatch"
        (GoError.sentinel Sentinel.ErrInvalidCredentials))) (0, none) (false, none) }
    (some { Email := "a@x.com", Password := "wrong", AppId := 7 }) () () () () "" ""
    (GoError.wrap "auth.Login" (GoError.join
      [GoError.errorsNew "user not found", GoError.sentinel Sentinel.ErrInvalidCredentials]))
    (GoError.wrap "password mismatch" (GoError.sentinel Sentinel.ErrInvalidCredentials))
    (by decide) rfl rfl (by decide) (by decide)

/-- C6: the boundary never leaks internal error detail.  For each handler and
two failures of the Auth Service neither of which is (or wraps) the domain
kind of that handler (InvalidCredentials for Login, UserAlreadyExists for
Register, UserNotFound for IsAdmin), the two results are the same: no
response, code internal and the fixed message of the operation
("failed to login", "failed to register user",
"failed to check admin status"), in which nothing of the error appears. -/
theorem C6_internal_errors_uniform {σ τ : Type} (intBits : Nat)
    (s1 : serverAPI σ) (s2 : serverAPI τ) (st1 st1a : σ) (st2 st2a : τ) (e1 e2 : GoError) :
    (∀ (request : Option LoginRequest) (t1 t2 : String),
      validateLogin request = none →
      s1.auth.Login (LoginRequest.GetEmail request) (LoginRequest.GetPassword request)
        (toInt intBits (LoginRequest.GetAppId request)) st1 = ((t1, some e1), st1a) →
      s2.auth.Login (LoginRequest.GetEmail request) (LoginRequest.GetPassword request)
        (toInt intBits (LoginRequest.GetAppId request)) st2 = ((t2, some e2), st2a) →
      errorsIs e1 Sentinel.ErrInvalidCredentials = false →
      errorsIs e2 Sentinel.ErrInvalidCredentials = false →
      (serverAPI.Login intBits s1 request st1).1 = (serverAPI.Login intBits s2 request st2).1 ∧
      (serverAPI.Login intBits s1 request st1).1 =
        (none, some { code := Code.Internal, message := "failed to login" })) ∧
    (∀ (request : Option RegisterRequest) (u1 u2 : Int),
      validateRegister request = none →
      s1.auth.RegisterNewUser (RegisterRequest.GetEmail request)
        (RegisterRequest.GetPassword request) st1 = ((u1, some e1), st1a) →
      s2.auth.RegisterNewUser (RegisterRequest.GetEmail request)
        (RegisterRequest.GetPassword request) st2 = ((u2, some e2), st2a) →
      errorsIs e1 Sentinel.ErrUserAlreadyExists = false →
      errorsIs e2 Sentinel.ErrUserAlreadyExists = false →
      (serverAPI.Register s1 request st1).1 = (serverAPI.Register s2 request st2).1 ∧
      (serverAPI.Register s1 request st1).1 =
        (none, some { code := Code.Internal, message := "failed to register user" })) ∧
    (∀ (request : Option IsAdminRequest) (b1 b2 : Bool),
      validateIsAdmin request = none →
      s1.auth.IsAdmin (IsAdminRequest.GetUserId request) st1 = ((b1, some e1), st1a) →
      s2.auth.IsAdmin (IsAdminRequest.GetUserId request) st2 = ((b2, some e2), st2a) →
      errorsIs e1 Sentinel.ErrUserNotFound = false →
      errorsIs e2 Sentinel.ErrUserNotFound = false →
      (serverAPI.IsAdmin s1 request st1).1 = (serverAPI.IsAdmin s2 request st2).1 ∧
      (serverAPI.IsAdmin s1 request st1).1 =
        (none, some { code := Code.Internal, message := "failed to check admin status" })) := by
  refine ⟨?_, ?_, ?_⟩
  · intro request t1 t2 hv h1 h2 hk1 hk2
    rw [Login_of_error intBits s1 request st1 st1a t1 e1 hv h1,
      Login_of_error intBits s2 request st2 st2a t2 e2 hv h2]
    simp [hk1, hk2]
  · intro request u1 u2 hv h1 h2 hk1 hk2
    rw [Register_of_error s1 request st1 st1a u1 e1 hv h1,
      Register_of_error s2 request st2 st2a u2 e2 hv h2]
    simp [hk1, hk2]
  · intro request b1 b2 hv h1 h2 hk1 hk2
    rw [IsAdmin_of_error s1 request st1 st1a b1 e1 hv h1,
      IsAdmin_of_error s2 request st2 st2a b2 e2 hv h2]
    simp [hk1, hk2]

/-- A service that lost its store and a service that wraps a differently
worded failure, asked for a login, a registration and an admin check. -/
theorem C6_internal_errors_uniform_witness :
    ((serverAPI.Login 64
        { auth := constAuth
            ("", some (GoError.wrap "storage.sqlite.User" (GoError.errorsNew "disk I/O error")))
            (0, some (GoError.wrap "storage.sqlite.User" (GoError.errorsNew "disk I/O error")))
            (false, some (GoError.wrap "storage.sqlite.User" (GoError.errorsNew "disk I/O error"))) }
        (some { Email := "a@x.com", Password := "pw1", AppId := 7 }) ()).1 =
      (none, some { code := Code.Internal, message := "failed to login" })) ∧
    ((serverAPI.Register
        { auth := constAuth
            ("", some (GoError.wrap "storage.sqlite.User" (GoError.errorsNew "disk I/O error")))
            (0, some (GoError.wrap "storage.sqlite.User" (GoError.errorsNew "disk I/O error")))
            (false, some (GoError.wrap "storage.sqlite.User" (GoError.errorsNew "disk I/O error"))) }
        (some { Email := "a@x.com", Password := "pw1" }) ()).1 =
      (none, some { code := Code.Internal, message := "failed to register user" })) ∧
    ((serverAPI.IsAdmin
        { auth := constAuth
            ("", some (GoError.wrap "storage.sqlite.User" (GoError.errorsNew "disk I/O error")))
            (0, some (GoError.wrap "storage.sqlite.User" (GoError.errorsNew "disk I/O error")))
            (false, some (GoError.wrap "storage.sqlite.User" (GoError.errorsNew "disk I/O error"))) }
        (some { UserId := 1 }) ()).1 =
      (none, some { code := Code.Internal, message := "failed to check admin status" })) :=
  ⟨((C6_internal_errors_uniform 64
      { auth := constAuth
          ("", some (GoError.wrap "storage.sqlite.User" (GoError.errorsNew "disk I/O error")))
          (0, some (GoError.wrap "storage.sqlite.User" (GoError.errorsNew "disk I/O error")))
          (false, some (GoError.wrap "storage.sqlite.User" (GoError.errorsNew "disk I/O error"))) }
      { auth := constAuth
          ("", some (GoError.errorsNew "context deadline exceeded"))
          (0, some (GoError.errorsNew "context deadline exceeded"))
          (false, some (GoError.errorsNew "context deadline exceeded")) }
      () () () ()
      (GoError.wrap "storage.sqlite.User" (GoError.errorsNew "disk I/O error"))
      (GoError.errorsNew "context deadline exceeded")).1
      (some { Email := "a@x.com", Password := "pw1", AppId := 7 }) "" ""
      (by decide) rfl rfl (by decide) (by decide)).2,
    ((C6_internal_errors_uniform 64
      { auth := constAuth
          ("", some (GoError.wrap "storage.sqlite.User" (GoError.errorsNew "disk I/O error")))
          (0, some (GoError.wrap "storage.sqlite.User" (GoError.errorsNew "disk I/O error")))
          (false, some (GoError.wrap "storage.sqlite.User" (GoError.errorsNew "disk I/O error"))) }
      { auth := constAuth
          ("", some (GoError.errorsNew "context deadline exceeded"))
          (0, some (GoError.errorsNew "context deadline exceeded"))
          (false, some (GoError.errorsNew "context deadline exceeded")) }
      () () () ()
      (GoError.wrap "storage.sqlite.User" (GoError.errorsNew "disk I/O error"))
      (GoError.errorsNew "context deadline exceeded")).2.1
      (some { Email := "a@x.com", Password := "pw1" }) 0 0
      (by decide) rfl rfl (by decide) (by decide)).2,
    ((C6_internal_errors_uniform 64
      { auth := constAuth
          ("", some (GoError.wrap "storage.sqlite.User" (GoError.errorsNew "disk I/O error")))
          (0, some (GoError.wrap "storage.sqlite.User" (GoError.errorsNew "disk I/O error")))
          (false, some (GoError.wrap "storage.sqlite.User" (GoError.errorsNew "disk I/O error"))) }
      { auth := constAuth
          ("", some (GoError.errorsNew "context deadline exceeded"))
          (0, some (GoError.errorsNew "context deadline exceeded"))
          (false, some (GoError.errorsNew "context deadline exceeded")) }
      () () () ()
      (GoError.wrap "storage.sqlite.User" (GoError.errorsNew "disk I/O error"))
      (GoError.errorsNew "context deadline exceeded")).2.2
      (some { UserId := 1 }) false false
      (by decide) rfl rfl (by decide) (by decide)).2⟩

/-- C7: when Login of the Auth Service fails with AppNotFound on a validated
request, the error being the AppNotFound value itself or that value wrapped
with context any number of times, the handler returns the generic failure: no
response, code internal, message "failed to login".  This is exactly the
result returned for a store or infrastructure error, and its code is neither
invalid-argument nor not-found. -/
theorem C7_app_not_found_is_internal {σ τ : Type} (intBits : Nat)
    (s1 : serverAPI σ) (s2 : serverAPI τ) (request : Option LoginRequest)
    (st1 st1a : σ) (st2 st2a : τ) (t1 t2 : String) (ctx1 ctx2 : List String) (text : String)
    (hv : validateLogin request = none)
    (h1 : s1.auth.Login (LoginRequest.GetEmail request) (LoginRequest.GetPassword request)
      (toInt intBits (LoginRequest.GetAppId request)) st1 =
        ((t1, some (wrapChain ctx1 (GoError.sentinel Sentinel.ErrAppNotFound))), st1a))
    (h2 : s2.auth.Login (LoginRequest.GetEmail request) (LoginRequest.GetPassword request)
      (toInt intBits (LoginRequest.GetAppId request)) st2 =
        ((t2, some (wrapChain ctx2 (GoError.errorsNew text))), st2a)) :
    (serverAPI.Login intBits s1 request st1).1 =
      (none, some { code := Code.Internal, message := "failed to login" }) ∧
    (serverAPI.Login intBits s1 request st1).1 = (serverAPI.Login intBits s2 request st2).1 := by
  rw [Login_of_error intBits s1 request st1 st1a t1 _ hv h1,
    Login_of_error intBits s2 request st2 st2a t2 _ hv h2]
  simp [errorsIs_wrapChain, errorsIs]

/-- A login for an app that is not configured, next to a login on a service
whose store cannot be opened. -/
theorem C7_app_not_found_is_internal_witness :
    (serverAPI.Login 64
        { auth := constAuth ("", some (wrapChain ["auth.Login", "storage.sqlite.App"]
            (GoError.sentinel Sentinel.ErrAppNotFound))) (0, none) (false, none) }
        (some { Email := "a@x.com", Password := "pw1", AppId := 8 }) ()).1 =
      (none, some { code := Code.Internal, message := "failed to login" }) ∧
    (serverAPI.Login 64
        { auth := constAuth ("", some (wrapChain ["auth.Login", "storage.sqlite.App"]
            (GoError.sentinel Sentinel.ErrAppNotFound))) (0, none) (false, none) }
        (some { Email := "a@x.com", Password := "pw1", AppId := 8 }) ()).1 =
      (serverAPI.Login 64
        { auth := constAuth ("", some (wrapChain ["auth.Login"]
            (GoError.errorsNew "unable to open database file"))) (0, none) (false, none) }
        (some { Email := "a@x.com", Password := "pw1", AppId := 8 }) ()).1 :=
  C7_app_not_found_is_internal 64
    { auth := constAuth ("", some (wrapChain ["auth.Login", "storage.sqlite.App"]
        (GoError.sentinel Sentinel.ErrAppNotFound))) (0, none) (false, none) }
    { auth := constAuth ("", some (wrapChain ["auth.Login"]
        (GoError.errorsNew "unable to open database file"))) (0, none) (false, none) }
    (some { Email := "a@x.com", Password := "pw1", AppId := 8 }) () () () () "" ""
    ["auth.Login", "storage.sqlite.App"] ["auth.Login"] "unable to open database file"
    (by decide) rfl rfl

/-- C8: success results pass through the boundary unchanged.  For a validated
request on which the operation of the Auth Service returns a value and no
error, the handler returns a nil error and a response carrying exactly that
value: Token is the returned token, UserId the returned user id, IsAdmin the
returned flag (false for a non-admin, true for an admin). -/
theorem C8_success_passes_through {σ : Type} (intBits : Nat) (s : serverAPI σ) (st st1 : σ) :
    (∀ (request : Option LoginRequest) (token : String),
      validateLogin request = none →
      s.auth.Login (LoginRequest.GetEmail request) (LoginRequest.GetPassword request)
        (toInt intBits (LoginRequest.GetAppId request)) st = ((token, none), st1) →
      serverAPI.Login intBits s request st = ((some { Token := token }, none), st1)) ∧
    (∀ (request : Option RegisterRequest) (uid : Int),
      validateRegister request = none →
      s.auth.RegisterNewUser (RegisterRequest.GetEmail request)
        (RegisterRequest.GetPassword request) st = ((uid, none), st1) →
      serverAPI.Register s request st = ((some { UserId := uid }, none), st1)) ∧
    (∀ (request : Option IsAdminRequest) (flag : Bool),
      validateIsAdmin request = none →
      s.auth.IsAdmin (IsAdminRequest.GetUserId request) st = ((flag, none), st1) →
      serverAPI.IsAdmin s request st = ((some { IsAdmin := flag }, none), st1)) :=
  ⟨fun request token hv hc => Login_of_success intBits s request st st1 token hv hc,
    fun request uid hv hc => Register_of_success s request st st1 uid hv hc,
    fun request flag hv hc => IsAdmin_of_success s request st st1 flag hv hc⟩

/-- The scenario of the spec: the login of a registered user for app 7, the
registration that is given the id 1, the admin check of a non-admin and that
of an admin. -/
theorem C8_success_passes_through_witness :
    serverAPI.Login 64 { auth := constAuth ("tok.en", none) (1, none) (false, none) }
        (some { Email := "a@x.com", Password := "pw1", AppId := 7 }) () =
      ((some { Token := "tok.en" }, none), ()) ∧
    serverAPI.Register { auth := constAuth ("tok.en", none) (1, none) (false, none) }
        (some { Email := "a@x.com", Password := "pw1" }) () =
      ((some { UserId := 1 }, none), ()) ∧
    serverAPI.IsAdmin { auth := constAuth ("tok.en", none) (1, none) (false, none) }
        (some { UserId := 1 }) () =
      ((some { IsAdmin := false }, none), ()) ∧
    serverAPI.IsAdmin { auth := constAuth ("tok.en", none) (1, none) (true, none) }
        (some { UserId := 1 }) () =
      ((some { IsAdmin := true }, none), ()) :=
  ⟨(C8_success_passes_through 64
      { auth := constAuth ("tok.en", none) (1, none) (false, none) } () ()).1
      (some { Email := "a@x.com", Password := "pw1", AppId := 7 }) "tok.en" (by decide) rfl,
    (C8_success_passes_through 64
      { auth := constAuth ("tok.en", none) (1, none) (false, none) } () ()).2.1
      (some { Email := "a@x.com", Password := "pw1" }) 1 (by decide) rfl,
    (C8_success_passes_through 64
      { auth := constAuth ("tok.en", none) (1, none) (false, none) } () ()).2.2
      (some { UserId := 1 }) false (by decide) rfl,
    (C8_success_passes_through 64
      { auth := constAuth ("tok.en", none) (1, none) (true, none) } () ()).2.2
      (some { UserId := 1 }) true (by decide) rfl⟩

/-- C9: when all required fields are present (Login: email and password not
empty and app_id different from 0, negative values included; Register: email
and password not empty; IsAdmin: user_id different from 0, negative values
included), validation succeeds and the handler invokes the corresponding
operation of the Auth Service exactly once, the journal of calls growing by
the single call whose arguments are the email, password, app id and user id
of the request, unchanged: the conversion of the `int32` app id to the
platform integer of 32 or 64 bits keeps its value. -/
theorem C9_valid_request_calls_once {σ : Type} (intBits : Nat) (a : Auth σ)
    (st : σ) (log : List AuthCall) (hb : intBits = 32 ∨ intBits = 64) :
    (∀ r : LoginRequest, isInt32 r.AppId →
      r.Email ≠ "" → r.Password ≠ "" → r.AppId ≠ 0 →
      validateLogin (some r) = none ∧
      (serverAPI.Login intBits { auth := recording a } (some r) (st, log)).2.2 =
        log ++ [AuthCall.Login r.Email r.Password r.AppId] ∧
      (serverAPI.Login intBits { auth := recording a } (some r) (st, log)).2.1 =
        (a.Login r.Email r.Password r.AppId st).2) ∧
    (∀ r : RegisterRequest, r.Email ≠ "" → r.Password ≠ "" →
      validateRegister (some r) = none ∧
      (serverAPI.Register { auth := recording a } (some r) (st, log)).2.2 =
        log ++ [AuthCall.RegisterNewUser r.Email r.Password] ∧
      (serverAPI.Register { auth := recording a } (some r) (st, log)).2.1 =
        (a.RegisterNewUser r.Email r.Password st).2) ∧
    (∀ r : IsAdminRequest, r.UserId ≠ 0 →
      validateIsAdmin (some r) = none ∧
      (serverAPI.IsAdmin { auth := recording a } (some r) (st, log)).2.2 =
        log ++ [AuthCall.IsAdmin r.UserId] ∧
      (serverAPI.IsAdmin { auth := recording a } (some r) (st, log)).2.1 =
        (a.IsAdmin r.UserId st).2) := by
  refine ⟨?_, ?_, ?_⟩
  · intro r hr he hp hi
    have hval : validateLogin (some r) = none :=
      (validateLogin_eq_none_iff (some r)).2 ⟨he, hp, hi⟩
    have hconv : toInt intBits r.AppId = r.AppId := toInt_of_isInt32 intBits r.AppId hb hr
    have hst := Login_recording_state intBits a (some r) st log hval
    simp only [LoginRequest.GetEmail, LoginRequest.GetPassword, LoginRequest.GetAppId,
      hconv] at hst
    refine ⟨hval, ?_, ?_⟩
    · rw [hst]
    · rw [hst]
  · intro r he hp
    have hval : validateRegister (some r) = none :=
      (validateRegister_eq_none_iff (some r)).2 ⟨he, hp⟩
    have hst := Register_recording_state a (some r) st log hval
    simp only [RegisterRequest.GetEmail, RegisterRequest.GetPassword] at hst
    refine ⟨hval, ?_, ?_⟩
    · rw [hst]
    · rw [hst]
  · intro r hu
    have hval : validateIsAdmin (some r) = none :=
      (validateIsAdmin_eq_none_iff (some r)).2 hu
    have hst := IsAdmin_recording_state a (some r) st log hval
    simp only [IsAdminRequest.GetUserId] at hst
    refine ⟨hval, ?_, ?_⟩
    · rw [hst]
    · rw [hst]

/-- Requests with a negative app id and a negative user id, on a platform with
32 bit integers. -/
theorem C9_valid_request_calls_once_witness :
    (validateLogin (some { Email := "a@x.com", Password := "pw1", AppId := -7 }) = none ∧
      (serverAPI.Login 32 { auth := recording (constAuth ("t", none) (1, none) (true, none)) }
        (some { Email := "a@x.com", Password := "pw1", AppId := -7 }) ((), [])).2.2 =
        [] ++ [AuthCall.Login "a@x.com" "pw1" (-7)] ∧
      (serverAPI.Login 32 { auth := recording (constAuth ("t", none) (1, none) (true, none)) }
        (some { Email := "a@x.com", Password := "pw1", AppId := -7 }) ((), [])).2.1 = ()) ∧
    (validateRegister (some { Email := "a@x.com", Password := "pw1" }) = none ∧
      (serverAPI.Register { auth := recording (constAuth ("t", none) (1, none) (true, none)) }
        (some { Email := "a@x.com", Password := "pw1" }) ((), [])).2.2 =
        [] ++ [AuthCall.RegisterNewUser "a@x.com" "pw1"] ∧
      (serverAPI.Register { auth := recording (constAuth ("t", none) (1, none) (true, none)) }
        (some { Email := "a@x.com", Password := "pw1" }) ((), [])).2.1 = ()) ∧
    (validateIsAdmin (some { UserId := -1 }) = none ∧
      (serverAPI.IsAdmin { auth := recording (constAuth ("t", none) (1, none) (true, none)) }
        (some { UserId := -1 }) ((), [])).2.2 = [] ++ [AuthCall.IsAdmin (-1)] ∧
      (serverAPI.IsAdmin { auth := recording (constAuth ("t", none) (1, none) (true, none)) }
        (some { UserId := -1 }) ((), [])).2.1 = ()) :=
  ⟨(C9_valid_request_calls_once 32 (constAuth ("t", none) (1, none) (true, none)) () []
      (Or.inl rfl)).1 { Email := "a@x.com", Password := "pw1", AppId := -7 }
      (by decide) (by decide) (by decide) (by decide),
    (C9_valid_request_calls_once 32 (constAuth ("t", none) (1, none) (true, none)) () []
      (Or.inl rfl)).2.1 { Email := "a@x.com", Password := "pw1" } (by decide) (by decide),
    (C9_valid_request_calls_once 32 (constAuth ("t", none) (1, none) (true, none)) () []
      (Or.inl rfl)).2.2 { UserId := -1 } (by decide)⟩

/-- C10: `setupLogger` returns a logger if and only if the environment name is
exactly "local", "dev" or "prod", with the debug level for "local" and "dev"
and the info level for "prod"; for every other string, the empty string and
"PROD" among them, it returns nil, and the first use of the logger in `main`
dereferences a nil pointer. -/
theorem C10_setupLogger_known_environments (env : String) :
    ((∃ l : Logger, setupLogger env = some l) ↔
      (env = "local" ∨ env = "dev" ∨ env = "prod")) ∧
    setupLogger "local" = some { level := Level.LevelDebug } ∧
    setupLogger "dev" = some { level := Level.LevelDebug } ∧
    setupLogger "prod" = some { level := Level.LevelInfo } ∧
    ((env ≠ "local" ∧ env ≠ "dev" ∧ env ≠ "prod") →
      setupLogger env = none ∧
      mainStart env = Except.error GoPanic.nilPointerDereference) ∧
    setupLogger "" = none ∧ setupLogger "PROD" = none := by
  refine ⟨?_, by decide, by decide, by decide, ?_, by decide, by decide⟩
  · unfold setupLogger envLocal envDev envProd
    by_cases h1 : env = "local"
    · simp [h1]
    · by_cases h2 : env = "dev"
      · simp [h2]
      · by_cases h3 : env = "prod"
        · simp [h3]
        · simp [h1, h2, h3]
  · rintro ⟨h1, h2, h3⟩
    have hnone : setupLogger env = none := by
      simp [setupLogger, envLocal, envDev, envProd, h1, h2, h3]
    exact ⟨hnone, by simp [mainStart, hnone, Logger.Info]⟩

/-- The service started with the environment name in capitals. -/
theorem C10_setupLogger_known_environments_witness :
    setupLogger "PROD" = none ∧
      mainStart "PROD" = Except.error GoPanic.nilPointerDereference :=
  (C10_setupLogger_known_environments "PROD").2.2.2.2.1 (by decide)

end SSO
